import Mathlib

/-!
Shallow embedding of the "simple-webhook" Obsidian plugin
(src/unnamed/part_000, `WebhookOnSavePlugin` and `WebhookOnSaveSettingTab`).

Each handler of the plugin is modelled as a pure function from the settings,
the ambient data the host supplies (vault name, timestamp, files), and the
outcome of the external calls (`adapter.stat`, `fetch`) to the list of
observable effects the handler performs: HTTP POSTs, user-visible notices,
and console error logs.  The order of effects in the list is the order the
code performs them.
-/

/-- JS `String.prototype.trim`: drop leading and trailing whitespace.
Defined structurally over the character list so that it reduces in the
kernel (Lean's own `String.trim` is defined by well-founded recursion). -/
def jsTrim (s : String) : String :=
  String.mk
    (((s.data.dropWhile Char.isWhitespace).reverse.dropWhile
        Char.isWhitespace).reverse)

/-- JS `String.prototype.split` with a single-character separator, on the
character list: always returns at least one (possibly empty) piece. -/
def jsSplitList (sep : Char) : List Char → List (List Char)
  | [] => [[]]
  | c :: rest =>
      let r := jsSplitList sep rest
      if c == sep then [] :: r
      else
        match r with
        | [] => [[c]]
        | h :: t => (c :: h) :: t

/-- JS `String.prototype.split` with a single-character separator. -/
def jsSplit (sep : Char) (s : String) : List String :=
  (jsSplitList sep s.data).map String.mk

/-- Structure `WebhookOnSaveSettings` from the source: the flat settings record. -/
structure WebhookOnSaveSettings where
  webhookUrl : String
  enabled : Bool
  showNotices : Bool
  autoMode : Bool
  sendOnFileOpen : Bool
  sendOnLeafChange : Bool
deriving DecidableEq, Repr

/-- Constant `DEFAULT_SETTINGS` from the source. -/
def DEFAULT_SETTINGS : WebhookOnSaveSettings :=
  { webhookUrl := ""
    enabled := true
    showNotices := false
    autoMode := true
    sendOnFileOpen := false
    sendOnLeafChange := false }

/-- A `TFile`: the fields of the host's file object the plugin reads.
`extension` is `Option` because the code writes `file.extension ?? null`. -/
structure TFile where
  path : String
  name : String
  extension : Option String
deriving DecidableEq, Repr

/-- A `TAbstractFile`: either a `TFile` or some other vault item (e.g. a
folder), which the handlers filter out with `instanceof TFile`. -/
inductive TAbstractFile where
  | file (f : TFile)
  | folder (path : String)
deriving DecidableEq, Repr

/-- The result of `this.app.vault.adapter.stat(path)`: the call may throw
(`Except.error`), resolve to `null` (`Except.ok none`), or resolve to a stat
object whose `size` may itself be absent. -/
structure FileStat where
  size : Option Nat
deriving DecidableEq, Repr

/-- Structure `FilePayload` from the source. -/
structure FilePayload where
  event : String
  vaultName : String
  timestamp : String
  path : String
  name : String
  extension : Option String
  size : Option Nat
deriving DecidableEq, Repr

/-- Structure `RenamePayload` from the source. -/
structure RenamePayload where
  event : String
  vaultName : String
  timestamp : String
  oldPath : String
  newPath : String
  oldName : String
  newName : String
deriving DecidableEq, Repr

/-- The body the settings tab's "Send test" button builds: it carries the
fixed marker field `_event: "test"` instead of a file payload's `event`. -/
structure TestPayload where
  eventMarker : String
  message : String
  vaultName : String
  timestamp : String
deriving DecidableEq, Repr

/-- A JSON body handed to `fetch`: one of the three shapes the plugin sends. -/
inductive Body where
  | file (p : FilePayload)
  | rename (p : RenamePayload)
  | test (p : TestPayload)
deriving DecidableEq, Repr

/-- An observable effect of a handler run. -/
inductive Effect where
  | post (url : String) (body : Body)
  | notice (message : String)
  | consoleError (message : String)
deriving DecidableEq, Repr

/-- The outcome of the `fetch` call: a response (with `ok`, `status`,
`statusText`) or a thrown transport error. -/
structure FetchResponse where
  ok : Bool
  status : Nat
  statusText : String
deriving DecidableEq, Repr

/-- Result of the `fetch` call; `Except.error` models the transport exception branch. -/
abbrev FetchResult := Except Unit FetchResponse

/-- Outcome of `adapter.stat`. -/
abbrev StatResult := Except Unit (Option FileStat)

/-- Function `getNameFromPath` from the source:
`const parts = path.split("/"); return parts[parts.length - 1] ?? path;`. -/
def getNameFromPath (path : String) : String :=
  let parts := jsSplit '/' path
  (parts.getLast?).getD path

/-- Function `getFileSizeSafe` from the source: `stat?.size ?? null` inside
`try`/`catch`, returning `null` on a thrown error. -/
def getFileSizeSafe (statResult : StatResult) : Option Nat :=
  match statResult with
  | .error _ => none
  | .ok none => none
  | .ok (some st) => st.size

/-- Function `shouldSend` from the source.  It both decides whether to proceed and,
when the URL is blank, optionally emits the configuration-missing notice;
the model returns the decision together with the emitted effects. -/
def shouldSend (s : WebhookOnSaveSettings) (manual : Bool) :
    Bool × List Effect :=
  if !s.enabled then (false, [])
  else if !manual && !s.autoMode then (false, [])
  else if s.webhookUrl == "" || jsTrim s.webhookUrl == "" then
    (false,
      if s.showNotices then
        [Effect.notice "Simple Webhook: webhook URL not configured."]
      else [])
  else (true, [])

/-- Function `sendWebhook` from the source.  Trims the URL and silently returns when
it is blank; otherwise performs exactly one POST, then surfaces the failure
(non-`ok` status or thrown transport error) through optional notices.  The
`console.error` call sits inside the `showNotices` guard in the source. -/
def sendWebhook (s : WebhookOnSaveSettings) (body : Body)
    (fetchResult : FetchResult) : List Effect :=
  let url := jsTrim s.webhookUrl
  if url == "" then []
  else
    Effect.post url body ::
      match fetchResult with
      | .ok r =>
          if !r.ok && s.showNotices then
            [Effect.notice
              ("Simple Webhook: HTTP " ++ toString r.status ++ " "
                ++ r.statusText)]
          else []
      | .error _ =>
          if s.showNotices then
            [Effect.consoleError "Simple Webhook error:",
             Effect.notice "Simple Webhook: request failed (see console)."]
          else []

/-- Function `handleFileEvent` from the source: guard with `shouldSend()` (automatic
mode), drop non-`TFile` items, build the `FilePayload`, send. -/
def handleFileEvent (s : WebhookOnSaveSettings) (vaultName timestamp : String)
    (event : String) (file : TAbstractFile) (statResult : StatResult)
    (fetchResult : FetchResult) : List Effect :=
  let guard := shouldSend s false
  if !guard.1 then guard.2
  else
    match file with
    | .folder _ => guard.2
    | .file f =>
        guard.2 ++
          sendWebhook s
            (Body.file
              { event := event
                vaultName := vaultName
                timestamp := timestamp
                path := f.path
                name := f.name
                extension := f.extension
                size := getFileSizeSafe statResult })
            fetchResult

/-- Function `handleRenameEvent` from the source. -/
def handleRenameEvent (s : WebhookOnSaveSettings)
    (vaultName timestamp : String) (file : TAbstractFile) (oldPath : String)
    (fetchResult : FetchResult) : List Effect :=
  let guard := shouldSend s false
  if !guard.1 then guard.2
  else
    match file with
    | .folder _ => guard.2
    | .file f =>
        guard.2 ++
          sendWebhook s
            (Body.rename
              { event := "rename"
                vaultName := vaultName
                timestamp := timestamp
                oldPath := oldPath
                newPath := f.path
                oldName := getNameFromPath oldPath
                newName := f.name })
            fetchResult

/-- The four automatic vault events as the plugin subscribes to them
(`registerVaultEvents`): `modify`/`create`/`delete` are wired to
`handleFileEvent` with the matching label and `rename` to
`handleRenameEvent` with the old path. -/
inductive VaultEvent where
  | modify (file : TAbstractFile)
  | create (file : TAbstractFile)
  | delete (file : TAbstractFile)
  | rename (file : TAbstractFile) (oldPath : String)
deriving DecidableEq, Repr

/-- The event-kind label of a vault event, as the wiring in
`registerVaultEvents` passes it on. -/
def VaultEvent.label : VaultEvent → String
  | .modify _ => "modify"
  | .create _ => "create"
  | .delete _ => "delete"
  | .rename _ _ => "rename"

/-- The dispatch performed by `registerVaultEvents`. -/
def dispatchVaultEvent (s : WebhookOnSaveSettings)
    (vaultName timestamp : String) (ev : VaultEvent) (statResult : StatResult)
    (fetchResult : FetchResult) : List Effect :=
  match ev with
  | .modify f => handleFileEvent s vaultName timestamp "modify" f statResult fetchResult
  | .create f => handleFileEvent s vaultName timestamp "create" f statResult fetchResult
  | .delete f => handleFileEvent s vaultName timestamp "delete" f statResult fetchResult
  | .rename f oldPath => handleRenameEvent s vaultName timestamp f oldPath fetchResult

/-- Function `handleWorkspaceFileTrigger` from the source: checks `enabled` and a
non-blank URL directly (never `autoMode`), then sends a `FilePayload`
labelled with the workspace event. -/
def handleWorkspaceFileTrigger (s : WebhookOnSaveSettings)
    (vaultName timestamp : String) (label : String) (file : TFile)
    (statResult : StatResult) (fetchResult : FetchResult) : List Effect :=
  if !s.enabled then []
  else if s.webhookUrl == "" || jsTrim s.webhookUrl == "" then
    if s.showNotices then
      [Effect.notice "Simple Webhook: webhook URL not configured."]
    else []
  else
    sendWebhook s
      (Body.file
        { event := label
          vaultName := vaultName
          timestamp := timestamp
          path := file.path
          name := file.name
          extension := file.extension
          size := getFileSizeSafe statResult })
      fetchResult

/-- The `file-open` workspace listener from `registerWorkspaceEvents`:
`if (!this.settings.sendOnFileOpen || !file) return;`. -/
def onFileOpen (s : WebhookOnSaveSettings) (vaultName timestamp : String)
    (file : Option TFile) (statResult : StatResult)
    (fetchResult : FetchResult) : List Effect :=
  if !s.sendOnFileOpen then []
  else
    match file with
    | none => []
    | some f =>
        handleWorkspaceFileTrigger s vaultName timestamp "file-open" f
          statResult fetchResult

/-- The `active-leaf-change` workspace listener from
`registerWorkspaceEvents`: requires the toggle and a markdown view with a
file; `leafFile` models `leaf?.view?.file`. -/
def onActiveLeafChange (s : WebhookOnSaveSettings)
    (vaultName timestamp : String) (leafFile : Option TFile)
    (statResult : StatResult) (fetchResult : FetchResult) : List Effect :=
  if !s.sendOnLeafChange then []
  else
    match leafFile with
    | none => []
    | some f =>
        handleWorkspaceFileTrigger s vaultName timestamp "leaf-change" f
          statResult fetchResult

/-- Function `triggerManualWebhook` from the source: requires an active file, then
`shouldSend(true)` (which skips the `autoMode` check), sends a `modify`
`FilePayload`, and finally shows an unconditional success notice. -/
def triggerManualWebhook (s : WebhookOnSaveSettings)
    (vaultName timestamp : String) (activeFile : Option TFile)
    (statResult : StatResult) (fetchResult : FetchResult) : List Effect :=
  match activeFile with
  | none => [Effect.notice "Simple Webhook: no active note."]
  | some f =>
      let guard := shouldSend s true
      if !guard.1 then guard.2
      else
        guard.2 ++
          sendWebhook s
            (Body.file
              { event := "modify"
                vaultName := vaultName
                timestamp := timestamp
                path := f.path
                name := f.name
                extension := f.extension
                size := getFileSizeSafe statResult })
            fetchResult ++
          [Effect.notice "Simple Webhook: webhook sent for the active note."]

/-- The "Send test" button of `WebhookOnSaveSettingTab.display`: trims the
URL itself, aborts with an unconditional notice when blank, otherwise POSTs
the marker body `{_event: "test", ...}` with its own `fetch` call and its
own success/failure notices (all unconditional, not gated by
`showNotices`). -/
def sendTestWebhook (s : WebhookOnSaveSettings) (vaultName timestamp : String)
    (fetchResult : FetchResult) : List Effect :=
  let url := jsTrim s.webhookUrl
  if url == "" then
    [Effect.notice "Simple Webhook: configure the webhook URL first."]
  else
    Effect.post url
        (Body.test
          { eventMarker := "test"
            message := "Simple Webhook test payload"
            vaultName := vaultName
            timestamp := timestamp }) ::
      match fetchResult with
      | .ok r =>
          if r.ok then [Effect.notice "Simple Webhook: test webhook sent."]
          else
            [Effect.notice
              ("Simple Webhook: test failed (HTTP " ++ toString r.status
                ++ ").")]
      | .error _ =>
          [Effect.consoleError "Simple Webhook test error",
           Effect.notice "Simple Webhook: unable to send the test webhook."]

/-- Is this effect an HTTP POST? -/
def Effect.isPost : Effect → Bool
  | .post _ _ => true
  | _ => false

/-- Number of HTTP POSTs among the effects. -/
def postCount (effs : List Effect) : Nat :=
  (effs.filter Effect.isPost).length

/-- The bodies POSTed, in order. -/
def postedBodies : List Effect → List Body
  | [] => []
  | .post _ b :: rest => b :: postedBodies rest
  | _ :: rest => postedBodies rest

/-- The event field of a body: `event` for file and rename payloads, the
`_event` marker for the test payload. -/
def Body.eventField : Body → String
  | .file p => p.event
  | .rename p => p.event
  | .test p => p.eventMarker

/-- Is this effect one of the two configuration-missing notices (the shared
`shouldSend`/`handleWorkspaceFileTrigger` message, or the test button's own
message)? -/
def Effect.isConfigNotice : Effect → Bool
  | .notice m =>
      m == "Simple Webhook: webhook URL not configured." ||
        m == "Simple Webhook: configure the webhook URL first."
  | _ => false

/-- Number of configuration-missing notices among the effects. -/
def configNoticeCount (effs : List Effect) : Nat :=
  (effs.filter Effect.isConfigNotice).length

/-- Is this effect a console error log? -/
def Effect.isConsoleError : Effect → Bool
  | .consoleError _ => true
  | _ => false

/-- Number of console error logs among the effects. -/
def consoleErrorCount (effs : List Effect) : Nat :=
  (effs.filter Effect.isConsoleError).length

/-- The `TFile` a vault event is about, when it is about one (the handlers
ignore events on other vault items). -/
def VaultEvent.fileOf : VaultEvent → Option TFile
  | .modify (.file f) => some f
  | .create (.file f) => some f
  | .delete (.file f) => some f
  | .rename (.file f) _ => some f
  | _ => none

/-- Concrete settings used by several witnesses. -/
def exampleSettings : WebhookOnSaveSettings :=
  { webhookUrl := "https://x.test/hook"
    enabled := true
    showNotices := false
    autoMode := true
    sendOnFileOpen := false
    sendOnLeafChange := false }

/-- Concrete file used by several witnesses. -/
def exampleFile : TFile :=
  { path := "a/b.md", name := "b.md", extension := some "md" }

/-- Concrete successful HTTP response used by several witnesses. -/
def okResponse : FetchResponse :=
  { ok := true, status := 200, statusText := "OK" }

theorem jsTrim_empty : jsTrim "" = "" := rfl

theorem webhookUrl_ne_of_trim_ne (s : WebhookOnSaveSettings)
    (hu : jsTrim s.webhookUrl ≠ "") : s.webhookUrl ≠ "" := by
  intro h
  exact hu (by rw [h]; rfl)

theorem shouldSend_auto_ok (s : WebhookOnSaveSettings)
    (he : s.enabled = true) (ha : s.autoMode = true)
    (hu : jsTrim s.webhookUrl ≠ "") : shouldSend s false = (true, []) := by
  have hw := webhookUrl_ne_of_trim_ne s hu
  simp [shouldSend, he, ha, hw, hu]

theorem shouldSend_manual_ok (s : WebhookOnSaveSettings)
    (he : s.enabled = true) (hu : jsTrim s.webhookUrl ≠ "") :
    shouldSend s true = (true, []) := by
  have hw := webhookUrl_ne_of_trim_ne s hu
  simp [shouldSend, he, hw, hu]

theorem postCount_sendWebhook (s : WebhookOnSaveSettings) (b : Body)
    (fr : FetchResult) (hu : jsTrim s.webhookUrl ≠ "") :
    postCount (sendWebhook s b fr) = 1 := by
  cases fr with
  | ok r =>
      by_cases h : (!r.ok && s.showNotices) = true <;>
        simp [sendWebhook, postCount, hu, h, Effect.isPost]
  | error e =>
      by_cases h : s.showNotices = true <;>
        simp [sendWebhook, postCount, hu, h, Effect.isPost]

theorem postedBodies_sendWebhook (s : WebhookOnSaveSettings) (b : Body)
    (fr : FetchResult) (hu : jsTrim s.webhookUrl ≠ "") :
    postedBodies (sendWebhook s b fr) = [b] := by
  cases fr with
  | ok r =>
      by_cases h : (!r.ok && s.showNotices) = true <;>
        simp [sendWebhook, postedBodies, hu, h]
  | error e =>
      by_cases h : s.showNotices = true <;>
        simp [sendWebhook, postedBodies, hu, h]

/-- C1: for every automatic vault event kind (modify, create, delete,
rename) on a file, when `enabled`, `autoMode`, and a URL that is non-empty
after trimming all hold, exactly one HTTP POST is issued and every POSTed
body carries an event field equal to the triggering kind.  The concrete
scenario (modify "a/b.md" of size 10) is evaluated in the witness. -/
theorem vaultEvent_posts_exactly_one_matching (s : WebhookOnSaveSettings)
    (vn ts : String) (ev : VaultEvent) (f : TFile)
    (stat : StatResult) (fr : FetchResult)
    (he : s.enabled = true) (ha : s.autoMode = true)
    (hu : jsTrim s.webhookUrl ≠ "") (hf : ev.fileOf = some f) :
    postCount (dispatchVaultEvent s vn ts ev stat fr) = 1 ∧
      ∀ b ∈ postedBodies (dispatchVaultEvent s vn ts ev stat fr),
        Body.eventField b = ev.label := by
  have hss := shouldSend_auto_ok s he ha hu
  cases ev with
  | modify file =>
      cases file with
      | file g =>
          simp [dispatchVaultEvent, handleFileEvent, hss,
            postCount_sendWebhook s _ fr hu, postedBodies_sendWebhook s _ fr hu,
            VaultEvent.label, Body.eventField]
      | folder p => simp [VaultEvent.fileOf] at hf
  | create file =>
      cases file with
      | file g =>
          simp [dispatchVaultEvent, handleFileEvent, hss,
            postCount_sendWebhook s _ fr hu, postedBodies_sendWebhook s _ fr hu,
            VaultEvent.label, Body.eventField]
      | folder p => simp [VaultEvent.fileOf] at hf
  | delete file =>
      cases file with
      | file g =>
          simp [dispatchVaultEvent, handleFileEvent, hss,
            postCount_sendWebhook s _ fr hu, postedBodies_sendWebhook s _ fr hu,
            VaultEvent.label, Body.eventField]
      | folder p => simp [VaultEvent.fileOf] at hf
  | rename file oldPath =>
      cases file with
      | file g =>
          simp [dispatchVaultEvent, handleRenameEvent, hss,
            postCount_sendWebhook s _ fr hu, postedBodies_sendWebhook s _ fr hu,
            VaultEvent.label, Body.eventField]
      | folder p => simp [VaultEvent.fileOf] at hf

/-- Witness for C1: the concrete scenario of the claim.  Modifying
"a/b.md" (size 10) with the example settings issues exactly one POST, whose
body has event "modify", path "a/b.md", name "b.md", extension "md",
size 10. -/
theorem vaultEvent_posts_exactly_one_matching_witness :
    (postCount
        (dispatchVaultEvent exampleSettings "My Vault" "2024-01-01T00:00:00.000Z"
          (VaultEvent.modify (TAbstractFile.file exampleFile))
          (Except.ok (some { size := some 10 })) (Except.ok okResponse)) = 1 ∧
      ∀ b ∈ postedBodies
          (dispatchVaultEvent exampleSettings "My Vault" "2024-01-01T00:00:00.000Z"
            (VaultEvent.modify (TAbstractFile.file exampleFile))
            (Except.ok (some { size := some 10 })) (Except.ok okResponse)),
        Body.eventField b =
          VaultEvent.label (VaultEvent.modify (TAbstractFile.file exampleFile))) ∧
    postedBodies
        (dispatchVaultEvent exampleSettings "My Vault" "2024-01-01T00:00:00.000Z"
          (VaultEvent.modify (TAbstractFile.file exampleFile))
          (Except.ok (some { size := some 10 })) (Except.ok okResponse)) =
      [Body.file
        { event := "modify"
          vaultName := "My Vault"
          timestamp := "2024-01-01T00:00:00.000Z"
          path := "a/b.md"
          name := "b.md"
          extension := some "md"
          size := some 10 }] :=
  ⟨vaultEvent_posts_exactly_one_matching exampleSettings "My Vault"
      "2024-01-01T00:00:00.000Z"
      (VaultEvent.modify (TAbstractFile.file exampleFile)) exampleFile
      (Except.ok (some { size := some 10 })) (Except.ok okResponse)
      (by decide) (by decide) (by decide) (by decide),
    by decide⟩

/-- Concrete file-payload body used by concrete statements. -/
def exampleBody : Body :=
  Body.file
    { event := "modify"
      vaultName := "My Vault"
      timestamp := "2024-01-01T00:00:00.000Z"
      path := "a/b.md"
      name := "b.md"
      extension := some "md"
      size := some 10 }

theorem shouldSend_disabled (s : WebhookOnSaveSettings) (m : Bool)
    (he : s.enabled = false) : shouldSend s m = (false, []) := by
  simp [shouldSend, he]

theorem workspaceTrigger_disabled (s : WebhookOnSaveSettings)
    (vn ts lbl : String) (f : TFile) (stat : StatResult) (fr : FetchResult)
    (he : s.enabled = false) :
    handleWorkspaceFileTrigger s vn ts lbl f stat fr = [] := by
  simp [handleWorkspaceFileTrigger, he]

/-- C2 counterexample: the settings panel's send-test action does not
consult the master `enabled` flag.  With `enabled = false` and a configured
URL, clicking "Send test" still issues one HTTP POST, so "no POST is issued
by every operation, the send-test action included, when `enabled` is
false" fails. -/
theorem disabled_master_flag_counterexample :
    WebhookOnSaveSettings.enabled { exampleSettings with enabled := false } =
        false ∧
      postCount
        (sendTestWebhook { exampleSettings with enabled := false } "My Vault"
          "2024-01-01T00:00:00.000Z" (Except.ok okResponse)) = 1 := by
  decide

/-- C2 amended: when the master `enabled` flag is false, no HTTP POST is
issued by the vault event handlers, the workspace focus handlers, or the
manual command, regardless of every other flag; the settings panel's
send-test action is the exception and is not governed by the flag. -/
theorem disabled_master_flag_blocks_posts (s : WebhookOnSaveSettings)
    (vn ts : String) (ev : VaultEvent) (lf af : Option TFile)
    (stat : StatResult) (fr : FetchResult) (he : s.enabled = false) :
    postCount (dispatchVaultEvent s vn ts ev stat fr) = 0 ∧
    postCount (onFileOpen s vn ts lf stat fr) = 0 ∧
    postCount (onActiveLeafChange s vn ts lf stat fr) = 0 ∧
    postCount (triggerManualWebhook s vn ts af stat fr) = 0 := by
  have hss : ∀ m, shouldSend s m = (false, []) := fun m =>
    shouldSend_disabled s m he
  refine ⟨?_, ?_, ?_, ?_⟩
  · cases ev with
    | modify file =>
        simp [dispatchVaultEvent, handleFileEvent, hss, postCount]
    | create file =>
        simp [dispatchVaultEvent, handleFileEvent, hss, postCount]
    | delete file =>
        simp [dispatchVaultEvent, handleFileEvent, hss, postCount]
    | rename file oldPath =>
        simp [dispatchVaultEvent, handleRenameEvent, hss, postCount]
  · cases lf with
    | none => cases ho : s.sendOnFileOpen <;> simp [onFileOpen, ho, postCount]
    | some f =>
        cases ho : s.sendOnFileOpen <;>
          simp [onFileOpen, ho, postCount,
            workspaceTrigger_disabled s vn ts "file-open" f stat fr he]
  · cases lf with
    | none =>
        cases ho : s.sendOnLeafChange <;>
          simp [onActiveLeafChange, ho, postCount]
    | some f =>
        cases ho : s.sendOnLeafChange <;>
          simp [onActiveLeafChange, ho, postCount,
            workspaceTrigger_disabled s vn ts "leaf-change" f stat fr he]
  · cases af with
    | none => simp [triggerManualWebhook, postCount, Effect.isPost]
    | some f => simp [triggerManualWebhook, hss, postCount]

/-- Witness for C2's amended theorem at concrete disabled settings. -/
theorem disabled_master_flag_blocks_posts_witness :
    postCount
        (dispatchVaultEvent { exampleSettings with enabled := false }
          "My Vault" "2024-01-01T00:00:00.000Z"
          (VaultEvent.modify (TAbstractFile.file exampleFile))
          (Except.ok (some { size := some 10 })) (Except.ok okResponse)) = 0 ∧
    postCount
        (onFileOpen { exampleSettings with enabled := false } "My Vault"
          "2024-01-01T00:00:00.000Z" (some exampleFile)
          (Except.ok (some { size := some 10 })) (Except.ok okResponse)) = 0 ∧
    postCount
        (onActiveLeafChange { exampleSettings with enabled := false }
          "My Vault" "2024-01-01T00:00:00.000Z" (some exampleFile)
          (Except.ok (some { size := some 10 })) (Except.ok okResponse)) = 0 ∧
    postCount
        (triggerManualWebhook { exampleSettings with enabled := false }
          "My Vault" "2024-01-01T00:00:00.000Z" (some exampleFile)
          (Except.ok (some { size := some 10 })) (Except.ok okResponse)) = 0 :=
  disabled_master_flag_blocks_posts { exampleSettings with enabled := false }
    "My Vault" "2024-01-01T00:00:00.000Z"
    (VaultEvent.modify (TAbstractFile.file exampleFile)) (some exampleFile)
    (some exampleFile) (Except.ok (some { size := some 10 }))
    (Except.ok okResponse) (by decide)

theorem sendWebhook_emptyUrl (s : WebhookOnSaveSettings) (b : Body)
    (fr : FetchResult) (hu : jsTrim s.webhookUrl = "") :
    sendWebhook s b fr = [] := by
  simp [sendWebhook, hu]

theorem shouldSend_emptyUrl (s : WebhookOnSaveSettings) (m : Bool)
    (hu : jsTrim s.webhookUrl = "") :
    shouldSend s m =
      (false,
        if s.enabled && (m || s.autoMode) && s.showNotices then
          [Effect.notice "Simple Webhook: webhook URL not configured."]
        else []) := by
  cases he : s.enabled <;> cases hm : m <;> cases ha : s.autoMode <;>
    cases hn : s.showNotices <;> simp [shouldSend, he, ha, hn, hu]

theorem workspaceTrigger_emptyUrl (s : WebhookOnSaveSettings)
    (vn ts lbl : String) (f : TFile) (stat : StatResult) (fr : FetchResult)
    (hu : jsTrim s.webhookUrl = "") :
    handleWorkspaceFileTrigger s vn ts lbl f stat fr =
      if s.enabled && s.showNotices then
        [Effect.notice "Simple Webhook: webhook URL not configured."]
      else [] := by
  cases he : s.enabled <;> cases hn : s.showNotices <;>
    simp [handleWorkspaceFileTrigger, he, hn, hu]

theorem sendTestWebhook_emptyUrl (s : WebhookOnSaveSettings)
    (vn ts : String) (fr : FetchResult) (hu : jsTrim s.webhookUrl = "") :
    sendTestWebhook s vn ts fr =
      [Effect.notice "Simple Webhook: configure the webhook URL first."] := by
  simp [sendTestWebhook, hu]

theorem handleFileEvent_emptyUrl (s : WebhookOnSaveSettings)
    (vn ts event : String) (file : TAbstractFile) (stat : StatResult)
    (fr : FetchResult) (hu : jsTrim s.webhookUrl = "") :
    handleFileEvent s vn ts event file stat fr =
      if s.enabled && s.autoMode && s.showNotices then
        [Effect.notice "Simple Webhook: webhook URL not configured."]
      else [] := by
  simp [handleFileEvent, shouldSend_emptyUrl s false hu]

theorem handleRenameEvent_emptyUrl (s : WebhookOnSaveSettings)
    (vn ts : String) (file : TAbstractFile) (oldPath : String)
    (fr : FetchResult) (hu : jsTrim s.webhookUrl = "") :
    handleRenameEvent s vn ts file oldPath fr =
      if s.enabled && s.autoMode && s.showNotices then
        [Effect.notice "Simple Webhook: webhook URL not configured."]
      else [] := by
  simp [handleRenameEvent, shouldSend_emptyUrl s false hu]

theorem dispatchVaultEvent_emptyUrl (s : WebhookOnSaveSettings)
    (vn ts : String) (ev : VaultEvent) (stat : StatResult)
    (fr : FetchResult) (hu : jsTrim s.webhookUrl = "") :
    dispatchVaultEvent s vn ts ev stat fr =
      if s.enabled && s.autoMode && s.showNotices then
        [Effect.notice "Simple Webhook: webhook URL not configured."]
      else [] := by
  cases ev with
  | modify file => exact handleFileEvent_emptyUrl s vn ts "modify" file stat fr hu
  | create file => exact handleFileEvent_emptyUrl s vn ts "create" file stat fr hu
  | delete file => exact handleFileEvent_emptyUrl s vn ts "delete" file stat fr hu
  | rename file oldPath => exact handleRenameEvent_emptyUrl s vn ts file oldPath fr hu

theorem triggerManual_emptyUrl (s : WebhookOnSaveSettings)
    (vn ts : String) (f : TFile) (stat : StatResult) (fr : FetchResult)
    (hu : jsTrim s.webhookUrl = "") :
    triggerManualWebhook s vn ts (some f) stat fr =
      if s.enabled && s.showNotices then
        [Effect.notice "Simple Webhook: webhook URL not configured."]
      else [] := by
  simp [triggerManualWebhook, shouldSend_emptyUrl s true hu]

/-- C3: with an empty (after trimming) destination URL, no send path issues
an HTTP POST — every operation aborts before the network call — and, when
the trigger is otherwise active (the flags checked earlier in the handler
hold) and `showNotices` is on, exactly one configuration-missing notice is
shown; the test button shows its configuration notice unconditionally. -/
theorem emptyUrl_aborts_before_network (s : WebhookOnSaveSettings)
    (vn ts lbl : String) (ev : VaultEvent) (f : TFile) (af : Option TFile)
    (stat : StatResult) (fr : FetchResult) (hu : jsTrim s.webhookUrl = "") :
    postCount (dispatchVaultEvent s vn ts ev stat fr) = 0 ∧
    postCount (handleWorkspaceFileTrigger s vn ts lbl f stat fr) = 0 ∧
    postCount (triggerManualWebhook s vn ts af stat fr) = 0 ∧
    postCount (sendTestWebhook s vn ts fr) = 0 ∧
    (s.enabled = true → s.autoMode = true → s.showNotices = true →
      configNoticeCount (dispatchVaultEvent s vn ts ev stat fr) = 1) ∧
    (s.enabled = true → s.showNotices = true →
      configNoticeCount (handleWorkspaceFileTrigger s vn ts lbl f stat fr)
        = 1) ∧
    (s.enabled = true → s.showNotices = true →
      configNoticeCount (triggerManualWebhook s vn ts (some f) stat fr)
        = 1) ∧
    configNoticeCount (sendTestWebhook s vn ts fr) = 1 := by
  refine ⟨?_, ?_, ?_, ?_, ?_, ?_, ?_, ?_⟩
  · rw [dispatchVaultEvent_emptyUrl s vn ts ev stat fr hu]
    split <;> rfl
  · rw [workspaceTrigger_emptyUrl s vn ts lbl f stat fr hu]
    split <;> rfl
  · cases af with
    | none => rfl
    | some g =>
        rw [triggerManual_emptyUrl s vn ts g stat fr hu]
        split <;> rfl
  · rw [sendTestWebhook_emptyUrl s vn ts fr hu]
    rfl
  · intro he ha hn
    rw [dispatchVaultEvent_emptyUrl s vn ts ev stat fr hu, he, ha, hn]
    rfl
  · intro he hn
    rw [workspaceTrigger_emptyUrl s vn ts lbl f stat fr hu, he, hn]
    rfl
  · intro he hn
    rw [triggerManual_emptyUrl s vn ts f stat fr hu, he, hn]
    rfl
  · rw [sendTestWebhook_emptyUrl s vn ts fr hu]
    rfl

/-- Witness for C3 at concrete settings: empty URL, all triggers active,
notices on. -/
theorem emptyUrl_aborts_before_network_witness :
    postCount
        (dispatchVaultEvent
          { exampleSettings with webhookUrl := "", showNotices := true }
          "My Vault" "2024-01-01T00:00:00.000Z"
          (VaultEvent.modify (TAbstractFile.file exampleFile))
          (Except.ok (some { size := some 10 })) (Except.ok okResponse)) = 0 ∧
    postCount
        (sendTestWebhook
          { exampleSettings with webhookUrl := "", showNotices := true }
          "My Vault" "2024-01-01T00:00:00.000Z" (Except.ok okResponse)) = 0 ∧
    configNoticeCount
        (dispatchVaultEvent
          { exampleSettings with webhookUrl := "", showNotices := true }
          "My Vault" "2024-01-01T00:00:00.000Z"
          (VaultEvent.modify (TAbstractFile.file exampleFile))
          (Except.ok (some { size := some 10 })) (Except.ok okResponse)) = 1 ∧
    configNoticeCount
        (sendTestWebhook
          { exampleSettings with webhookUrl := "", showNotices := true }
          "My Vault" "2024-01-01T00:00:00.000Z" (Except.ok okResponse)) = 1 := by
  have h := emptyUrl_aborts_before_network
    { exampleSettings with webhookUrl := "", showNotices := true }
    "My Vault" "2024-01-01T00:00:00.000Z" "file-open"
    (VaultEvent.modify (TAbstractFile.file exampleFile)) exampleFile
    (some exampleFile) (Except.ok (some { size := some 10 }))
    (Except.ok okResponse) (by decide)
  exact ⟨h.1, h.2.2.2.1,
    h.2.2.2.2.1 (by decide) (by decide) (by decide), h.2.2.2.2.2.2.2⟩

theorem jsSplitList_ne_nil (sep : Char) (l : List Char) :
    jsSplitList sep l ≠ [] := by
  induction l with
  | nil => simp [jsSplitList]
  | cons c rest ih =>
      simp only [jsSplitList]
      by_cases h : (c == sep) = true
      · simp [h]
      · simp only [h]
        cases hr : jsSplitList sep rest with
        | nil => simp
        | cons a t => simp

theorem jsSplit_ne_nil (sep : Char) (s : String) : jsSplit sep s ≠ [] := by
  simp [jsSplit]
  exact jsSplitList_ne_nil sep s.data

/-- Function `getNameFromPath` returns the final `/`-separated segment of the path:
the `?? path` fallback of the source never fires because `split` always
returns at least one piece. -/
theorem getNameFromPath_is_final_segment (p : String) :
    (jsSplit '/' p).getLast? = some (getNameFromPath p) := by
  have h : jsSplit '/' p ≠ [] := jsSplit_ne_nil '/' p
  have hs : ((jsSplit '/' p).getLast?).isSome = true :=
    List.getLast?_isSome.mpr h
  obtain ⟨x, hx⟩ := Option.isSome_iff_exists.mp hs
  simp [getNameFromPath, hx]

/-- C4: every rename event that produces a payload carries the old and new
path together with the old and new name from the same rename occurrence:
`oldPath` is the event's old path, `newPath` the file's current path,
`oldName` the final `/`-separated segment of the old path, and `newName`
the file's name.  The claim's concrete scenario is evaluated in the
witness. -/
theorem renameEvent_payload_pairs (s : WebhookOnSaveSettings)
    (vn ts : String) (f : TFile) (oldPath : String) (fr : FetchResult)
    (he : s.enabled = true) (ha : s.autoMode = true)
    (hu : jsTrim s.webhookUrl ≠ "") :
    postedBodies (handleRenameEvent s vn ts (TAbstractFile.file f) oldPath fr)
        =
      [Body.rename
        { event := "rename"
          vaultName := vn
          timestamp := ts
          oldPath := oldPath
          newPath := f.path
          oldName := getNameFromPath oldPath
          newName := f.name }] ∧
    (jsSplit '/' oldPath).getLast? = some (getNameFromPath oldPath) := by
  constructor
  · simp [handleRenameEvent, shouldSend_auto_ok s he ha hu,
      postedBodies_sendWebhook s _ fr hu]
  · exact getNameFromPath_is_final_segment oldPath

/-- Witness for C4: renaming "old.md" to "folder/new.md" yields oldPath
"old.md", newPath "folder/new.md", oldName "old.md", newName "new.md". -/
theorem renameEvent_payload_pairs_witness :
    postedBodies
        (handleRenameEvent exampleSettings "My Vault"
          "2024-01-01T00:00:00.000Z"
          (TAbstractFile.file
            { path := "folder/new.md", name := "new.md",
              extension := some "md" })
          "old.md" (Except.ok okResponse)) =
      [Body.rename
        { event := "rename"
          vaultName := "My Vault"
          timestamp := "2024-01-01T00:00:00.000Z"
          oldPath := "old.md"
          newPath := "folder/new.md"
          oldName := "old.md"
          newName := "new.md" }] := by
  have h := renameEvent_payload_pairs exampleSettings "My Vault"
    "2024-01-01T00:00:00.000Z"
    { path := "folder/new.md", name := "new.md", extension := some "md" }
    "old.md" (Except.ok okResponse) (by decide) (by decide) (by decide)
  rw [h.1]
  have hn : getNameFromPath "old.md" = "old.md" := by decide
  rw [hn]

/-- C5: the settings tab's "Send test" action, whenever the trimmed URL is
non-empty, issues exactly one HTTP POST whose body is the fixed test-marker
payload (marker field `_event = "test"`, a shape distinct from the file and
rename payloads), and its behaviour does not depend on the `enabled` or
`autoMode` flags. -/
theorem sendTest_marker_and_independence (s : WebhookOnSaveSettings)
    (vn ts : String) (fr : FetchResult) (e a : Bool)
    (hu : jsTrim s.webhookUrl ≠ "") :
    postCount (sendTestWebhook s vn ts fr) = 1 ∧
    postedBodies (sendTestWebhook s vn ts fr) =
      [Body.test
        { eventMarker := "test"
          message := "Simple Webhook test payload"
          vaultName := vn
          timestamp := ts }] ∧
    sendTestWebhook { s with enabled := e, autoMode := a } vn ts fr =
      sendTestWebhook s vn ts fr := by
  refine ⟨?_, ?_, ?_⟩
  · cases fr with
    | ok r =>
        by_cases h : r.ok = true <;>
          simp [sendTestWebhook, postCount, hu, h, Effect.isPost]
    | error err => simp [sendTestWebhook, postCount, hu, Effect.isPost]
  · cases fr with
    | ok r =>
        by_cases h : r.ok = true <;>
          simp [sendTestWebhook, postedBodies, hu, h]
    | error err => simp [sendTestWebhook, postedBodies, hu]
  · rfl

/-- Witness for C5 with the example settings (flags flipped to false). -/
theorem sendTest_marker_and_independence_witness :
    postCount
        (sendTestWebhook exampleSettings "My Vault"
          "2024-01-01T00:00:00.000Z" (Except.ok okResponse)) = 1 ∧
    postedBodies
        (sendTestWebhook exampleSettings "My Vault"
          "2024-01-01T00:00:00.000Z" (Except.ok okResponse)) =
      [Body.test
        { eventMarker := "test"
          message := "Simple Webhook test payload"
          vaultName := "My Vault"
          timestamp := "2024-01-01T00:00:00.000Z" }] ∧
    sendTestWebhook { exampleSettings with enabled := false, autoMode := false }
        "My Vault" "2024-01-01T00:00:00.000Z" (Except.ok okResponse) =
      sendTestWebhook exampleSettings "My Vault" "2024-01-01T00:00:00.000Z"
        (Except.ok okResponse) :=
  sendTest_marker_and_independence exampleSettings "My Vault"
    "2024-01-01T00:00:00.000Z" (Except.ok okResponse) false false (by decide)

/-- C6: when the size lookup throws or resolves to no stat, the file payload
is still constructed and sent, with `size` reported as absent (`null`). -/
theorem sizeLookupFailure_still_sends (s : WebhookOnSaveSettings)
    (vn ts event : String) (f : TFile) (stat : StatResult)
    (fr : FetchResult) (he : s.enabled = true) (ha : s.autoMode = true)
    (hu : jsTrim s.webhookUrl ≠ "")
    (hstat : stat = Except.error () ∨ stat = Except.ok none) :
    getFileSizeSafe stat = none ∧
    postCount (handleFileEvent s vn ts event (TAbstractFile.file f) stat fr)
        = 1 ∧
    postedBodies (handleFileEvent s vn ts event (TAbstractFile.file f) stat fr)
        =
      [Body.file
        { event := event
          vaultName := vn
          timestamp := ts
          path := f.path
          name := f.name
          extension := f.extension
          size := none }] := by
  have hsize : getFileSizeSafe stat = none := by
    rcases hstat with h | h <;> rw [h] <;> rfl
  refine ⟨hsize, ?_, ?_⟩
  · simp [handleFileEvent, shouldSend_auto_ok s he ha hu,
      postCount_sendWebhook s _ fr hu]
  · simp [handleFileEvent, shouldSend_auto_ok s he ha hu,
      postedBodies_sendWebhook s _ fr hu, hsize]

/-- Witness for C6: a modify event whose `stat` call throws still POSTs a
payload with `size = none`. -/
theorem sizeLookupFailure_still_sends_witness :
    getFileSizeSafe (Except.error ()) = none ∧
    postCount
        (handleFileEvent exampleSettings "My Vault" "2024-01-01T00:00:00.000Z"
          "modify" (TAbstractFile.file exampleFile) (Except.error ())
          (Except.ok okResponse)) = 1 ∧
    postedBodies
        (handleFileEvent exampleSettings "My Vault" "2024-01-01T00:00:00.000Z"
          "modify" (TAbstractFile.file exampleFile) (Except.error ())
          (Except.ok okResponse)) =
      [Body.file
        { event := "modify"
          vaultName := "My Vault"
          timestamp := "2024-01-01T00:00:00.000Z"
          path := "a/b.md"
          name := "b.md"
          extension := some "md"
          size := none }] :=
  sizeLookupFailure_still_sends exampleSettings "My Vault"
    "2024-01-01T00:00:00.000Z" "modify" exampleFile (Except.error ())
    (Except.ok okResponse) (by decide) (by decide) (by decide) (Or.inl rfl)

/-- C7 counterexample: with `showNotices = false` a transport exception is
caught and the attempt is made, but nothing is logged — the `console.error`
call sits inside the `showNotices` guard — so "on a network/transport
exception ... the error is logged" is false as an unconditional statement. -/
theorem delivery_failure_logging_counterexample :
    WebhookOnSaveSettings.showNotices exampleSettings = false ∧
    sendWebhook exampleSettings exampleBody (Except.error ()) =
      [Effect.post "https://x.test/hook" exampleBody] ∧
    consoleErrorCount
        (sendWebhook exampleSettings exampleBody (Except.error ())) = 0 := by
  decide

/-- C7 amended: on a non-success HTTP status a notice containing the status
code is shown exactly when `showNotices` is on; on a transport exception the
exception is caught and the error log together with the generic failure
notice appear exactly when `showNotices` is on; in both failure cases
exactly one attempt (one POST) is made, with no retry. -/
theorem delivery_failure_handling (s : WebhookOnSaveSettings) (b : Body)
    (r : FetchResponse) (hu : jsTrim s.webhookUrl ≠ "") :
    (r.ok = false →
      sendWebhook s b (Except.ok r) =
        Effect.post (jsTrim s.webhookUrl) b ::
          (if s.showNotices then
            [Effect.notice
              ("Simple Webhook: HTTP " ++ toString r.status ++ " "
                ++ r.statusText)]
          else [])) ∧
    (sendWebhook s b (Except.error ()) =
      Effect.post (jsTrim s.webhookUrl) b ::
        (if s.showNotices then
          [Effect.consoleError "Simple Webhook error:",
           Effect.notice "Simple Webhook: request failed (see console)."]
        else [])) ∧
    (∀ fr : FetchResult, postCount (sendWebhook s b fr) = 1) := by
  refine ⟨?_, ?_, fun fr => postCount_sendWebhook s b fr hu⟩
  · intro hok
    by_cases hn : s.showNotices = true <;> simp [sendWebhook, hu, hok, hn]
  · by_cases hn : s.showNotices = true <;> simp [sendWebhook, hu, hn]

/-- Witness for C7's amended theorem: notices on, an HTTP 404 response and a
transport error against the example settings. -/
theorem delivery_failure_handling_witness :
    (sendWebhook { exampleSettings with showNotices := true } exampleBody
        (Except.ok { ok := false, status := 404, statusText := "Not Found" }) =
      Effect.post
          (jsTrim
            (WebhookOnSaveSettings.webhookUrl
              { exampleSettings with showNotices := true }))
          exampleBody ::
        (if WebhookOnSaveSettings.showNotices
              { exampleSettings with showNotices := true } then
          [Effect.notice
            ("Simple Webhook: HTTP "
              ++ toString
                (FetchResponse.status
                  { ok := false, status := 404, statusText := "Not Found" })
              ++ " "
              ++ FetchResponse.statusText
                { ok := false, status := 404, statusText := "Not Found" })]
        else [])) ∧
    (sendWebhook { exampleSettings with showNotices := true } exampleBody
        (Except.error ()) =
      Effect.post
          (jsTrim
            (WebhookOnSaveSettings.webhookUrl
              { exampleSettings with showNotices := true }))
          exampleBody ::
        (if WebhookOnSaveSettings.showNotices
              { exampleSettings with showNotices := true } then
          [Effect.consoleError "Simple Webhook error:",
           Effect.notice "Simple Webhook: request failed (see console)."]
        else [])) ∧
    postCount
        (sendWebhook { exampleSettings with showNotices := true } exampleBody
          (Except.error ())) = 1 := by
  have h := delivery_failure_handling
    { exampleSettings with showNotices := true } exampleBody
    { ok := false, status := 404, statusText := "Not Found" } (by decide)
  exact ⟨h.1 (by decide), h.2.1, h.2.2 (Except.error ())⟩

theorem postedBodies_append (l1 l2 : List Effect) :
    postedBodies (l1 ++ l2) = postedBodies l1 ++ postedBodies l2 := by
  induction l1 with
  | nil => rfl
  | cons e rest ih => cases e <;> simp [postedBodies, ih]

/-- C8: the two workspace focus triggers send even when `autoMode` is off:
with a file present, a POST is issued exactly when `enabled`, the per-event
toggle, and a non-blank URL all hold — `autoMode` never enters — and the
handlers' output is literally invariant under changing `autoMode`. -/
theorem workspace_triggers_ignore_autoMode (s : WebhookOnSaveSettings)
    (vn ts : String) (f : TFile) (stat : StatResult) (fr : FetchResult)
    (a : Bool) :
    postCount (onFileOpen s vn ts (some f) stat fr) =
      (if s.enabled && s.sendOnFileOpen && !(jsTrim s.webhookUrl == "")
        then 1 else 0) ∧
    postCount (onActiveLeafChange s vn ts (some f) stat fr) =
      (if s.enabled && s.sendOnLeafChange && !(jsTrim s.webhookUrl == "")
        then 1 else 0) ∧
    postCount (onFileOpen s vn ts none stat fr) = 0 ∧
    postCount (onActiveLeafChange s vn ts none stat fr) = 0 ∧
    onFileOpen { s with autoMode := a } vn ts (some f) stat fr =
      onFileOpen s vn ts (some f) stat fr ∧
    onActiveLeafChange { s with autoMode := a } vn ts (some f) stat fr =
      onActiveLeafChange s vn ts (some f) stat fr := by
  refine ⟨?_, ?_, ?_, ?_, rfl, rfl⟩
  · cases ho : s.sendOnFileOpen with
    | false => simp [onFileOpen, ho, postCount]
    | true =>
        cases he : s.enabled with
        | false =>
            simp [onFileOpen, ho, handleWorkspaceFileTrigger, he, postCount]
        | true =>
            cases hb : jsTrim s.webhookUrl == "" with
            | true =>
                have ht : jsTrim s.webhookUrl = "" := by simpa using hb
                cases hn : s.showNotices <;>
                  simp [onFileOpen, ho, he, hb, hn, postCount, Effect.isPost,
                    workspaceTrigger_emptyUrl s vn ts "file-open" f stat fr ht]
            | false =>
                have ht : jsTrim s.webhookUrl ≠ "" := by simpa using hb
                have hw : (s.webhookUrl == "") = false := by
                  simpa using webhookUrl_ne_of_trim_ne s ht
                simp [onFileOpen, ho, he, hb, handleWorkspaceFileTrigger, hw,
                  postCount_sendWebhook s _ fr ht]
  · cases ho : s.sendOnLeafChange with
    | false => simp [onActiveLeafChange, ho, postCount]
    | true =>
        cases he : s.enabled with
        | false =>
            simp [onActiveLeafChange, ho, handleWorkspaceFileTrigger, he,
              postCount]
        | true =>
            cases hb : jsTrim s.webhookUrl == "" with
            | true =>
                have ht : jsTrim s.webhookUrl = "" := by simpa using hb
                cases hn : s.showNotices <;>
                  simp [onActiveLeafChange, ho, he, hb, hn, postCount,
                    Effect.isPost,
                    workspaceTrigger_emptyUrl s vn ts "leaf-change" f stat fr
                      ht]
            | false =>
                have ht : jsTrim s.webhookUrl ≠ "" := by simpa using hb
                have hw : (s.webhookUrl == "") = false := by
                  simpa using webhookUrl_ne_of_trim_ne s ht
                simp [onActiveLeafChange, ho, he, hb,
                  handleWorkspaceFileTrigger, hw,
                  postCount_sendWebhook s _ fr ht]
  · cases ho : s.sendOnFileOpen <;> simp [onFileOpen, ho, postCount]
  · cases ho : s.sendOnLeafChange <;> simp [onActiveLeafChange, ho, postCount]

/-- C9: a whitespace-only URL is unconfigured on every send path: the
pre-send guard (`shouldSend`) refuses, the delivery function returns
without a POST, and no entry point of the plugin issues a POST. -/
theorem whitespaceUrl_never_posts (s : WebhookOnSaveSettings)
    (vn ts lbl : String) (ev : VaultEvent) (f : TFile) (af lf : Option TFile)
    (stat : StatResult) (fr : FetchResult) (m : Bool) (b : Body)
    (hu : jsTrim s.webhookUrl = "") :
    (shouldSend s m).1 = false ∧
    sendWebhook s b fr = [] ∧
    postCount (dispatchVaultEvent s vn ts ev stat fr) = 0 ∧
    postCount (onFileOpen s vn ts lf stat fr) = 0 ∧
    postCount (onActiveLeafChange s vn ts lf stat fr) = 0 ∧
    postCount (handleWorkspaceFileTrigger s vn ts lbl f stat fr) = 0 ∧
    postCount (triggerManualWebhook s vn ts af stat fr) = 0 ∧
    postCount (sendTestWebhook s vn ts fr) = 0 := by
  refine ⟨?_, sendWebhook_emptyUrl s b fr hu, ?_, ?_, ?_, ?_, ?_, ?_⟩
  · rw [shouldSend_emptyUrl s m hu]
  · rw [dispatchVaultEvent_emptyUrl s vn ts ev stat fr hu]
    split <;> rfl
  · cases lf with
    | none => cases ho : s.sendOnFileOpen <;> simp [onFileOpen, ho, postCount]
    | some g =>
        cases ho : s.sendOnFileOpen with
        | false => simp [onFileOpen, ho, postCount]
        | true =>
            simp only [onFileOpen, ho]
            rw [workspaceTrigger_emptyUrl s vn ts "file-open" g stat fr hu]
            split
            · rfl
            · split <;> rfl
  · cases lf with
    | none =>
        cases ho : s.sendOnLeafChange <;>
          simp [onActiveLeafChange, ho, postCount]
    | some g =>
        cases ho : s.sendOnLeafChange with
        | false => simp [onActiveLeafChange, ho, postCount]
        | true =>
            simp only [onActiveLeafChange, ho]
            rw [workspaceTrigger_emptyUrl s vn ts "leaf-change" g stat fr hu]
            split
            · rfl
            · split <;> rfl
  · rw [workspaceTrigger_emptyUrl s vn ts lbl f stat fr hu]
    split <;> rfl
  · cases af with
    | none => rfl
    | some g =>
        rw [triggerManual_emptyUrl s vn ts g stat fr hu]
        split <;> rfl
  · rw [sendTestWebhook_emptyUrl s vn ts fr hu]
    rfl

/-- Witness for C9 with a whitespace-only URL and every trigger flag on. -/
theorem whitespaceUrl_never_posts_witness :
    (shouldSend
        { webhookUrl := "   ", enabled := true, showNotices := true,
          autoMode := true, sendOnFileOpen := true, sendOnLeafChange := true }
        false).1 = false ∧
    sendWebhook
        { webhookUrl := "   ", enabled := true, showNotices := true,
          autoMode := true, sendOnFileOpen := true, sendOnLeafChange := true }
        exampleBody (Except.ok okResponse) = [] ∧
    postCount
        (dispatchVaultEvent
          { webhookUrl := "   ", enabled := true, showNotices := true,
            autoMode := true, sendOnFileOpen := true,
            sendOnLeafChange := true }
          "My Vault" "2024-01-01T00:00:00.000Z"
          (VaultEvent.modify (TAbstractFile.file exampleFile))
          (Except.ok (some { size := some 10 })) (Except.ok okResponse))
      = 0 ∧
    postCount
        (onFileOpen
          { webhookUrl := "   ", enabled := true, showNotices := true,
            autoMode := true, sendOnFileOpen := true,
            sendOnLeafChange := true }
          "My Vault" "2024-01-01T00:00:00.000Z" (some exampleFile)
          (Except.ok (some { size := some 10 })) (Except.ok okResponse))
      = 0 ∧
    postCount
        (onActiveLeafChange
          { webhookUrl := "   ", enabled := true, showNotices := true,
            autoMode := true, sendOnFileOpen := true,
            sendOnLeafChange := true }
          "My Vault" "2024-01-01T00:00:00.000Z" (some exampleFile)
          (Except.ok (some { size := some 10 })) (Except.ok okResponse))
      = 0 ∧
    postCount
        (handleWorkspaceFileTrigger
          { webhookUrl := "   ", enabled := true, showNotices := true,
            autoMode := true, sendOnFileOpen := true,
            sendOnLeafChange := true }
          "My Vault" "2024-01-01T00:00:00.000Z" "file-open" exampleFile
          (Except.ok (some { size := some 10 })) (Except.ok okResponse))
      = 0 ∧
    postCount
        (triggerManualWebhook
          { webhookUrl := "   ", enabled := true, showNotices := true,
            autoMode := true, sendOnFileOpen := true,
            sendOnLeafChange := true }
          "My Vault" "2024-01-01T00:00:00.000Z" (some exampleFile)
          (Except.ok (some { size := some 10 })) (Except.ok okResponse))
      = 0 ∧
    postCount
        (sendTestWebhook
          { webhookUrl := "   ", enabled := true, showNotices := true,
            autoMode := true, sendOnFileOpen := true,
            sendOnLeafChange := true }
          "My Vault" "2024-01-01T00:00:00.000Z" (Except.ok okResponse))
      = 0 :=
  whitespaceUrl_never_posts
    { webhookUrl := "   ", enabled := true, showNotices := true,
      autoMode := true, sendOnFileOpen := true, sendOnLeafChange := true }
    "My Vault" "2024-01-01T00:00:00.000Z" "file-open"
    (VaultEvent.modify (TAbstractFile.file exampleFile)) exampleFile
    (some exampleFile) (some exampleFile)
    (Except.ok (some { size := some 10 })) (Except.ok okResponse) false
    exampleBody (by decide)

/-- C10: the manual "send webhook for the active note" action (command and
ribbon both call `triggerManualWebhook`) POSTs a file payload whose event
field is "modify", byte-for-byte the payload an automatic modify event on
the same file would produce (no field marks it as manually triggered). -/
theorem manual_command_sends_modify (s : WebhookOnSaveSettings)
    (vn ts : String) (f : TFile) (stat : StatResult) (fr : FetchResult)
    (he : s.enabled = true) (hu : jsTrim s.webhookUrl ≠ "") :
    postedBodies (triggerManualWebhook s vn ts (some f) stat fr) =
      [Body.file
        { event := "modify"
          vaultName := vn
          timestamp := ts
          path := f.path
          name := f.name
          extension := f.extension
          size := getFileSizeSafe stat }] ∧
    postedBodies (triggerManualWebhook s vn ts (some f) stat fr) =
      postedBodies
        (handleFileEvent { s with autoMode := true } vn ts "modify"
          (TAbstractFile.file f) stat fr) := by
  have hmanual : postedBodies (triggerManualWebhook s vn ts (some f) stat fr)
      =
      [Body.file
        { event := "modify"
          vaultName := vn
          timestamp := ts
          path := f.path
          name := f.name
          extension := f.extension
          size := getFileSizeSafe stat }] := by
    simp [triggerManualWebhook, shouldSend_manual_ok s he hu,
      postedBodies_append, postedBodies_sendWebhook s _ fr hu, postedBodies]
  have he2 : WebhookOnSaveSettings.enabled { s with autoMode := true } = true :=
    he
  have ha2 : WebhookOnSaveSettings.autoMode { s with autoMode := true } = true :=
    rfl
  have hu2 :
      jsTrim (WebhookOnSaveSettings.webhookUrl { s with autoMode := true })
        ≠ "" := hu
  have hauto : postedBodies
      (handleFileEvent { s with autoMode := true } vn ts "modify"
        (TAbstractFile.file f) stat fr) =
      [Body.file
        { event := "modify"
          vaultName := vn
          timestamp := ts
          path := f.path
          name := f.name
          extension := f.extension
          size := getFileSizeSafe stat }] := by
    simp [handleFileEvent,
      shouldSend_auto_ok { s with autoMode := true } he2 ha2 hu2,
      postedBodies_sendWebhook { s with autoMode := true } _ fr hu2]
  exact ⟨hmanual, hmanual.trans hauto.symm⟩

/-- Witness for C10: the manual action on "a/b.md" with `autoMode` off sends
the same modify-shaped payload an automatic modify event would send. -/
theorem manual_command_sends_modify_witness :
    postedBodies
        (triggerManualWebhook { exampleSettings with autoMode := false }
          "My Vault" "2024-01-01T00:00:00.000Z" (some exampleFile)
          (Except.ok (some { size := some 10 })) (Except.ok okResponse)) =
      [Body.file
        { event := "modify"
          vaultName := "My Vault"
          timestamp := "2024-01-01T00:00:00.000Z"
          path := "a/b.md"
          name := "b.md"
          extension := some "md"
          size :=
            getFileSizeSafe (Except.ok (some { size := some 10 })) }] ∧
    postedBodies
        (triggerManualWebhook { exampleSettings with autoMode := false }
          "My Vault" "2024-01-01T00:00:00.000Z" (some exampleFile)
          (Except.ok (some { size := some 10 })) (Except.ok okResponse)) =
      postedBodies
        (handleFileEvent
          { { exampleSettings with autoMode := false } with autoMode := true }
          "My Vault" "2024-01-01T00:00:00.000Z" "modify"
          (TAbstractFile.file exampleFile)
          (Except.ok (some { size := some 10 })) (Except.ok okResponse)) :=
  manual_command_sends_modify { exampleSettings with autoMode := false }
    "My Vault" "2024-01-01T00:00:00.000Z" exampleFile
    (Except.ok (some { size := some 10 })) (Except.ok okResponse)
    (by decide) (by decide)
